import Mathlib

/-!
Shallow embedding of `regress/sys/net/pf_opts/icmp6.py`: a one-shot test
utility that builds one IPv6/ICMPv6 packet (type 6, code 0, 16-byte body),
prepends the 4-byte big-endian BPF loopback framing word `24`, and injects
the frame once on a configured interface.  Bytes are modelled as `Nat`
values reduced `% 256` where the source packs machine integers.
-/

namespace Icmp6

/-- ASCII byte values of a string literal, as Python `b"..."` yields. -/
def strBytes (s : String) : List Nat := s.toList.map Char.toNat

/-- Line 3: `print("send icmp6 without options")`. -/
def announcement : String := "send icmp6 without options"

/-- Line 12: the usage diagnostic. -/
def usageMsg : String := "usage: icmp6.py Nn"

/-- Line 21: `payload=b"ABCDEFGHIJKLMNOP"`. -/
def payload : List Nat := strBytes "ABCDEFGHIJKLMNOP"

/-- Big-endian 2-byte encoding of a 16-bit value. -/
def be16 (n : Nat) : List Nat := [n / 256 % 256, n % 256]

/-- Big-endian 4-byte encoding of a 32-bit value. -/
def be32 (n : Nat) : List Nat :=
  [n / 16777216 % 256, n / 65536 % 256, n / 256 % 256, n % 256]

/-- `struct.pack('!I', v)`: 4 bytes, network order, value taken mod 2^32. -/
def pack_I (v : Nat) : List Nat := be32 (v % 4294967296)

/-- Group a byte list into big-endian 16-bit words, zero-padding an odd
tail, as the checksum routine of the packet library does. -/
def toWords16 : List Nat → List Nat
  | [] => []
  | [b] => [b % 256 * 256]
  | b1 :: b2 :: bs => (b1 % 256 * 256 + b2 % 256) :: toWords16 bs

/-- Internet one's-complement checksum over a byte list (the packet
library's `checksum`): sum the 16-bit words, fold the carries twice,
complement to 16 bits. -/
def cksum (data : List Nat) : Nat :=
  let s0 := (toWords16 data).foldl (· + ·) 0
  let s1 := s0 / 65536 + s0 % 65536
  let s2 := s1 + s1 / 65536
  65535 - s2 % 65536

/-- `ICMPv6Unknown(type=, code=, msgbody=)`: type (1 byte), code (1 byte),
checksum (2 bytes, computed at serialization), message body. -/
structure ICMPv6Unknown where
  type : Nat
  code : Nat
  msgbody : List Nat
deriving Repr, DecidableEq

/-- `IPv6(src=, dst=)` with the library's default header fields:
version 6, traffic class 0, flow label 0, next header 59 (none, overridden
to 58 when an ICMPv6 layer is attached), hop limit 64. -/
structure IPv6 where
  version : Nat := 6
  tc : Nat := 0
  fl : Nat := 0
  nh : Nat := 59
  hlim : Nat := 64
  src : List Nat
  dst : List Nat
deriving Repr, DecidableEq

/-- The two-layer packet built on lines 22-23. -/
structure Packet where
  ip : IPv6
  icmp : ICMPv6Unknown
deriving Repr, DecidableEq

/-- The `/` layering operator: attaching an ICMPv6 payload overloads the
IPv6 next-header field to 58. -/
def layer (ip : IPv6) (m : ICMPv6Unknown) : Packet :=
  { ip := { ip with nh := 58 }, icmp := m }

/-- ICMPv6 pseudo-header for checksum computation: source address,
destination address, 32-bit upper-layer length, 3 zero bytes, next header. -/
def pseudoHdr (src dst : List Nat) (ulen nh : Nat) : List Nat :=
  src ++ dst ++ be32 ulen ++ [0, 0, 0, nh]

/-- Serialized ICMPv6 message: type, code, checksum (over pseudo-header
plus the message with a zeroed checksum field), body. -/
def icmpBytes (src dst : List Nat) (m : ICMPv6Unknown) : List Nat :=
  let body := m.type % 256 :: m.code % 256 :: 0 :: 0 :: m.msgbody
  let ck := cksum (pseudoHdr src dst body.length 58 ++ body)
  m.type % 256 :: m.code % 256 :: ck / 256 :: ck % 256 :: m.msgbody

/-- `bytes(packet)`: 40-byte IPv6 header (version/class/flow word,
payload length, next header, hop limit, source, destination) followed by
the serialized ICMPv6 payload.  The payload-length field is computed from
the payload, as the library does. -/
def packetBytes (p : Packet) : List Nat :=
  let pl := icmpBytes p.ip.src p.ip.dst p.icmp
  be32 (p.ip.version % 16 * 268435456 + p.ip.tc % 256 * 1048576 + p.ip.fl % 1048576)
    ++ be16 pl.length ++ [p.ip.nh % 256, p.ip.hlim % 256]
    ++ p.ip.src ++ p.ip.dst ++ pl

/-- Line 20: `eid=pid & 0xffff`. -/
def eid (pid : Nat) : Nat := pid &&& 0xffff

/-- Lines 22-23: `packet=IPv6(src=ADDR6, dst=ADDR6)/
ICMPv6Unknown(type=6, code=0, msgbody=payload)`. -/
def mkPacket (ADDR6 : List Nat) : Packet :=
  layer { src := ADDR6, dst := ADDR6 } { type := 6, code := 0, msgbody := payload }

/-- Line 27: `bpf=pack('!I', 24) + bytes(packet)`. -/
def bpfFrame (ADDR6 : List Nat) : List Nat :=
  pack_I 24 ++ packetBytes (mkPacket ADDR6)

/-- The ICMPv6 checksum value of the frame, as a function of the address. -/
def icmpCk (a : List Nat) : Nat :=
  cksum (pseudoHdr a a 20 58 ++ (6 :: 0 :: 0 :: 0 :: payload))

/-- How a run terminates: a normal `exit(code)` (the implicit end-of-script
exit is code 0) or an uncaught exception. -/
inductive ExitStatus where
  | normal (code : Nat)
  | fault (exc : String)
deriving Repr, DecidableEq

/-- Observable behaviour of one run: the lines printed, the
`sendp(frame, iface=IF)` calls performed in order, and how it exited. -/
structure ExecResult where
  stdout : List String
  sends : List (String × List Nat)
  exit : ExitStatus
deriving Repr, DecidableEq

/-- The whole script.  `argv` is `sys.argv` (script name included); the
`addr` collaborator module's namespace is modelled by the two partial maps
`IFtab` / `ADDR6tab` giving the values of the symbols `IF_<N>` and
`ADDR6_<N>` (`none` when the symbol is undefined, in which case the
`eval` lookup raises an uncaught `NameError`); `pid` is `os.getpid()`.
The `ADDR6` value is the resolved 16-byte IPv6 address. -/
def run (argv : List String) (IFtab : String → Option String)
    (ADDR6tab : String → Option (List Nat)) (pid : Nat) : ExecResult :=
  if argv.length ≠ 2 then
    { stdout := [announcement, usageMsg], sends := [], exit := .normal 2 }
  else
    let N := argv.getD 1 ""
    match IFtab N with
    | none => { stdout := [announcement], sends := [], exit := .fault "NameError" }
    | some IF =>
      match ADDR6tab N with
      | none => { stdout := [announcement], sends := [], exit := .fault "NameError" }
      | some ADDR6 =>
        let _ := eid pid
        { stdout := [announcement], sends := [(IF, bpfFrame ADDR6)],
          exit := .normal 0 }

/-! ### Concrete configuration used by the witnesses -/

/-- A sample resolved IPv6 address, `fe80::1`, 16 bytes. -/
def addr1 : List Nat := [0xfe, 0x80, 0, 0, 0, 0, 0, 0, 0, 0, 0, 0, 0, 0, 0, 1]

/-- A sample `addr` module defining only `IF_1 = "lo0"`. -/
def IFtab1 : String → Option String :=
  fun n => if n = "1" then some "lo0" else none

/-- A sample `addr` module defining only `ADDR6_1 = fe80::1`. -/
def ADDR6tab1 : String → Option (List Nat) :=
  fun n => if n = "1" then some addr1 else none

/-! ### Frame structure helpers -/

theorem payload_eq :
    payload = [65, 66, 67, 68, 69, 70, 71, 72, 73, 74, 75, 76, 77, 78, 79, 80] := by
  decide

theorem payload_length : payload.length = 16 := by
  rw [payload_eq]; rfl

theorem icmpBytes_packet (a : List Nat) :
    icmpBytes a a { type := 6, code := 0, msgbody := payload } =
      [6, 0, icmpCk a / 256, icmpCk a % 256] ++ payload := by
  simp [icmpBytes, icmpCk, payload_length]

theorem bpfFrame_eq (a : List Nat) :
    bpfFrame a =
      0 :: 0 :: 0 :: 24 :: 96 :: 0 :: 0 :: 0 :: 0 :: 20 :: 58 :: 64 ::
        (a ++ (a ++ ([6, 0, icmpCk a / 256, icmpCk a % 256] ++ payload))) := by
  rw [bpfFrame, packetBytes, mkPacket, layer]
  simp only [icmpBytes_packet]
  simp [pack_I, be32, be16, payload_length]

theorem bpfFrame_take4 (a : List Nat) : (bpfFrame a).take 4 = [0, 0, 0, 24] := by
  rw [bpfFrame_eq]; rfl

theorem bpfFrame_drop4 (a : List Nat) :
    (bpfFrame a).drop 4 = packetBytes (mkPacket a) := by
  rfl

theorem bpfFrame_plen (a : List Nat) :
    ((bpfFrame a).drop 8).take 2 = [0, 20] := by
  rw [bpfFrame_eq]; rfl

theorem bpfFrame_nh_hlim (a : List Nat) :
    ((bpfFrame a).drop 10).take 2 = [58, 64] := by
  rw [bpfFrame_eq]; rfl

theorem bpfFrame_src (a : List Nat) (h : a.length = 16) :
    ((bpfFrame a).drop 12).take 16 = a := by
  rw [bpfFrame_eq]
  exact List.take_left' h

theorem bpfFrame_dst (a : List Nat) (h : a.length = 16) :
    ((bpfFrame a).drop 28).take 16 = a := by
  rw [bpfFrame_eq, show (28 : Nat) = 12 + 16 from rfl, ← List.drop_drop]
  have h12 : (0 :: 0 :: 0 :: 24 :: 96 :: 0 :: 0 :: 0 :: 0 :: 20 :: 58 :: 64 ::
      (a ++ (a ++ ([6, 0, icmpCk a / 256, icmpCk a % 256] ++ payload)))).drop 12 =
      a ++ (a ++ ([6, 0, icmpCk a / 256, icmpCk a % 256] ++ payload)) := rfl
  rw [h12, List.drop_left' h]
  exact List.take_left' h

theorem bpfFrame_drop44 (a : List Nat) (h : a.length = 16) :
    (bpfFrame a).drop 44 = [6, 0, icmpCk a / 256, icmpCk a % 256] ++ payload := by
  rw [bpfFrame_eq, show (44 : Nat) = 12 + 32 from rfl, ← List.drop_drop]
  have h12 : (0 :: 0 :: 0 :: 24 :: 96 :: 0 :: 0 :: 0 :: 0 :: 20 :: 58 :: 64 ::
      (a ++ (a ++ ([6, 0, icmpCk a / 256, icmpCk a % 256] ++ payload)))).drop 12 =
      a ++ (a ++ ([6, 0, icmpCk a / 256, icmpCk a % 256] ++ payload)) := rfl
  rw [h12, show (32 : Nat) = 16 + 16 from rfl, ← List.drop_drop,
    List.drop_left' h, List.drop_left' h]

theorem bpfFrame_drop48 (a : List Nat) (h : a.length = 16) :
    (bpfFrame a).drop 48 = payload := by
  rw [show (48 : Nat) = 44 + 4 from rfl, ← List.drop_drop, bpfFrame_drop44 a h]
  rfl

theorem bpfFrame_length (a : List Nat) (h : a.length = 16) :
    (bpfFrame a).length = 64 := by
  rw [bpfFrame_eq]
  simp [h, payload_length]

theorem run_valid (p N IF : String) (ADDR6 : List Nat)
    (IFtab : String → Option String) (ADDR6tab : String → Option (List Nat))
    (pid : Nat) (hIF : IFtab N = some IF) (hA : ADDR6tab N = some ADDR6) :
    run [p, N] IFtab ADDR6tab pid =
      { stdout := [announcement], sends := [(IF, bpfFrame ADDR6)],
        exit := .normal 0 } := by
  simp [run, hIF, hA]

/-! ### Claims -/

/-- C1: For every invocation with a valid configuration index `N`, the
ICMPv6 message carried in the transmitted packet (starting at frame offset
44, after the 4-byte framing word and the 40-byte IPv6 header) has type 6,
code 0, and a message body equal to the 16-byte ASCII string
`"ABCDEFGHIJKLMNOP"`. -/
theorem icmp6_type_code_body (p N IF : String) (ADDR6 : List Nat)
    (IFtab : String → Option String) (ADDR6tab : String → Option (List Nat))
    (pid : Nat) (hIF : IFtab N = some IF) (hA : ADDR6tab N = some ADDR6)
    (hlen : ADDR6.length = 16) :
    (run [p, N] IFtab ADDR6tab pid).sends = [(IF, bpfFrame ADDR6)] ∧
    ((bpfFrame ADDR6).drop 44).take 2 = [6, 0] ∧
    (bpfFrame ADDR6).drop 48 = strBytes "ABCDEFGHIJKLMNOP" ∧
    (strBytes "ABCDEFGHIJKLMNOP").length = 16 := by
  refine ⟨?_, ?_, ?_, by decide⟩
  · rw [run_valid p N IF ADDR6 IFtab ADDR6tab pid hIF hA]
  · rw [bpfFrame_drop44 ADDR6 hlen]; rfl
  · rw [bpfFrame_drop48 ADDR6 hlen]; rfl

theorem icmp6_type_code_body_witness :
    (IFtab1 "1" = some "lo0" ∧ ADDR6tab1 "1" = some addr1 ∧
      addr1.length = 16) ∧
    ((run ["icmp6.py", "1"] IFtab1 ADDR6tab1 1234).sends =
        [("lo0", bpfFrame addr1)] ∧
      ((bpfFrame addr1).drop 44).take 2 = [6, 0] ∧
      (bpfFrame addr1).drop 48 = strBytes "ABCDEFGHIJKLMNOP" ∧
      (strBytes "ABCDEFGHIJKLMNOP").length = 16) :=
  ⟨⟨by decide, by decide, by decide⟩,
    icmp6_type_code_body "icmp6.py" "1" "lo0" addr1 IFtab1 ADDR6tab1 1234
      (by decide) (by decide) (by decide)⟩

/-- C2: For every invocation with a valid configuration index `N`, the
frame handed to `sendp` begins with exactly 4 bytes that are the big-endian
unsigned encoding of 24 (`00 00 00 18`), immediately followed by the
serialized IPv6 packet bytes. -/
theorem frame_bpf_framing (p N IF : String) (ADDR6 : List Nat)
    (IFtab : String → Option String) (ADDR6tab : String → Option (List Nat))
    (pid : Nat) (hIF : IFtab N = some IF) (hA : ADDR6tab N = some ADDR6) :
    (run [p, N] IFtab ADDR6tab pid).sends = [(IF, bpfFrame ADDR6)] ∧
    (bpfFrame ADDR6).take 4 = pack_I 24 ∧
    pack_I 24 = [0x00, 0x00, 0x00, 0x18] ∧
    (bpfFrame ADDR6).drop 4 = packetBytes (mkPacket ADDR6) := by
  refine ⟨?_, ?_, by decide, bpfFrame_drop4 ADDR6⟩
  · rw [run_valid p N IF ADDR6 IFtab ADDR6tab pid hIF hA]
  · rw [bpfFrame_take4 ADDR6]; rfl

theorem frame_bpf_framing_witness :
    (IFtab1 "1" = some "lo0" ∧ ADDR6tab1 "1" = some addr1) ∧
    ((run ["icmp6.py", "1"] IFtab1 ADDR6tab1 1234).sends =
        [("lo0", bpfFrame addr1)] ∧
      (bpfFrame addr1).take 4 = pack_I 24 ∧
      pack_I 24 = [0x00, 0x00, 0x00, 0x18] ∧
      (bpfFrame addr1).drop 4 = packetBytes (mkPacket addr1)) :=
  ⟨⟨by decide, by decide⟩,
    frame_bpf_framing "icmp6.py" "1" "lo0" addr1 IFtab1 ADDR6tab1 1234
      (by decide) (by decide)⟩

/-- C3: For every invocation with a valid configuration index `N`, the
constructed IPv6 packet has its source address equal to its destination
address, both equal to the address resolved from `ADDR6_<N>` (frame bytes
12-27 and 28-43), and its next-header field (frame byte 10) identifies
ICMPv6 (58). -/
theorem ipv6_src_dst_nh (p N IF : String) (ADDR6 : List Nat)
    (IFtab : String → Option String) (ADDR6tab : String → Option (List Nat))
    (pid : Nat) (hIF : IFtab N = some IF) (hA : ADDR6tab N = some ADDR6)
    (hlen : ADDR6.length = 16) :
    (run [p, N] IFtab ADDR6tab pid).sends = [(IF, bpfFrame ADDR6)] ∧
    (mkPacket ADDR6).ip.src = ADDR6 ∧
    (mkPacket ADDR6).ip.dst = ADDR6 ∧
    (mkPacket ADDR6).ip.nh = 58 ∧
    ((bpfFrame ADDR6).drop 12).take 16 = ADDR6 ∧
    ((bpfFrame ADDR6).drop 28).take 16 = ADDR6 ∧
    ((bpfFrame ADDR6).drop 10).take 1 = [58] := by
  refine ⟨?_, rfl, rfl, rfl, bpfFrame_src ADDR6 hlen, bpfFrame_dst ADDR6 hlen, ?_⟩
  · rw [run_valid p N IF ADDR6 IFtab ADDR6tab pid hIF hA]
  · rw [bpfFrame_eq ADDR6]; rfl

theorem ipv6_src_dst_nh_witness :
    (IFtab1 "1" = some "lo0" ∧ ADDR6tab1 "1" = some addr1 ∧
      addr1.length = 16) ∧
    ((run ["icmp6.py", "1"] IFtab1 ADDR6tab1 1234).sends =
        [("lo0", bpfFrame addr1)] ∧
      (mkPacket addr1).ip.src = addr1 ∧
      (mkPacket addr1).ip.dst = addr1 ∧
      (mkPacket addr1).ip.nh = 58 ∧
      ((bpfFrame addr1).drop 12).take 16 = addr1 ∧
      ((bpfFrame addr1).drop 28).take 16 = addr1 ∧
      ((bpfFrame addr1).drop 10).take 1 = [58]) :=
  ⟨⟨by decide, by decide, by decide⟩,
    ipv6_src_dst_nh "icmp6.py" "1" "lo0" addr1 IFtab1 ADDR6tab1 1234
      (by decide) (by decide) (by decide)⟩

/-- C4: For every invocation whose argument count is not exactly one
(`len(sys.argv) != 2`), the program prints the usage message, exits with
status 2, and performs no symbol resolution, no packet construction and no
transmission: the result does not depend on the configuration tables or
the process id, and no send occurs. -/
theorem usage_error_exit2 (argv : List String)
    (IFtab IFtab' : String → Option String)
    (ADDR6tab ADDR6tab' : String → Option (List Nat)) (pid pid' : Nat)
    (h : argv.length ≠ 2) :
    run argv IFtab ADDR6tab pid =
      { stdout := [announcement, usageMsg], sends := [], exit := .normal 2 } ∧
    run argv IFtab ADDR6tab pid = run argv IFtab' ADDR6tab' pid' := by
  constructor
  · simp [run, h]
  · simp [run, h]

theorem usage_error_exit2_witness :
    (["icmp6.py", "1", "2"].length ≠ 2) ∧
    (run ["icmp6.py", "1", "2"] IFtab1 ADDR6tab1 1234 =
      { stdout := [announcement, usageMsg], sends := [], exit := .normal 2 } ∧
    run ["icmp6.py", "1", "2"] IFtab1 ADDR6tab1 1234 =
      run ["icmp6.py", "1", "2"] (fun _ => none) (fun _ => none) 99) :=
  ⟨by decide,
    usage_error_exit2 ["icmp6.py", "1", "2"] IFtab1 (fun _ => none)
      ADDR6tab1 (fun _ => none) 1234 99 (by decide)⟩

/-- C5: For every invocation with an index `N` for which `IF_<N>` or
`ADDR6_<N>` is not defined, the lookup failure propagates uncaught
(`NameError`) and the program terminates abnormally with no send. -/
theorem lookup_failure_aborts (p N : String)
    (IFtab : String → Option String) (ADDR6tab : String → Option (List Nat))
    (pid : Nat) (h : IFtab N = none ∨ ADDR6tab N = none) :
    run [p, N] IFtab ADDR6tab pid =
      { stdout := [announcement], sends := [], exit := .fault "NameError" } := by
  rcases h with h | h
  · simp [run, h]
  · rcases hIF : IFtab N with _ | IF
    · simp [run, hIF]
    · simp [run, hIF, h]

theorem lookup_failure_aborts_witness :
    (IFtab1 "7" = none ∨ ADDR6tab1 "7" = none) ∧
    run ["icmp6.py", "7"] IFtab1 ADDR6tab1 1234 =
      { stdout := [announcement], sends := [], exit := .fault "NameError" } :=
  ⟨Or.inl (by decide),
    lookup_failure_aborts "icmp6.py" "7" IFtab1 ADDR6tab1 1234
      (Or.inl (by decide))⟩

/-- C6: two executions with the same valid `N` (possibly under different
process ids and program names) perform identical sends, and the frame sent
is the value of `bpfFrame` at the resolved address alone. -/
theorem frame_deterministic (p p' N IF : String) (ADDR6 : List Nat)
    (IFtab : String → Option String) (ADDR6tab : String → Option (List Nat))
    (pid pid' : Nat) (hIF : IFtab N = some IF) (hA : ADDR6tab N = some ADDR6) :
    (run [p, N] IFtab ADDR6tab pid).sends =
      (run [p', N] IFtab ADDR6tab pid').sends ∧
    (run [p, N] IFtab ADDR6tab pid).sends = [(IF, bpfFrame ADDR6)] := by
  rw [run_valid p N IF ADDR6 IFtab ADDR6tab pid hIF hA,
    run_valid p' N IF ADDR6 IFtab ADDR6tab pid' hIF hA]
  exact ⟨rfl, rfl⟩

theorem frame_deterministic_witness :
    (IFtab1 "1" = some "lo0" ∧ ADDR6tab1 "1" = some addr1) ∧
    ((run ["icmp6.py", "1"] IFtab1 ADDR6tab1 1234).sends =
      (run ["./icmp6.py", "1"] IFtab1 ADDR6tab1 4321).sends ∧
    (run ["icmp6.py", "1"] IFtab1 ADDR6tab1 1234).sends =
      [("lo0", bpfFrame addr1)]) :=
  ⟨⟨by decide, by decide⟩,
    frame_deterministic "icmp6.py" "./icmp6.py" "1" "lo0" addr1
      IFtab1 ADDR6tab1 1234 4321 (by decide) (by decide)⟩

/-- C7: the program derives `eid` as the process id masked to its low 16
bits (`pid & 0xffff = pid % 2^16`), and this value has no effect on the
run: the observable result is independent of the process id. -/
theorem eid_masked_unused (pid pid' : Nat) :
    eid pid = pid % 2 ^ 16 ∧
    ∀ (argv : List String) (IFtab : String → Option String)
      (ADDR6tab : String → Option (List Nat)),
      run argv IFtab ADDR6tab pid = run argv IFtab ADDR6tab pid' := by
  constructor
  · have h := Nat.and_pow_two_sub_one_eq_mod pid 16
    norm_num at h ⊢
    exact h
  · intro argv IFtab ADDR6tab
    rfl

theorem eid_masked_unused_witness :
    eid 70000 = 70000 % 2 ^ 16 ∧
    run ["icmp6.py", "1"] IFtab1 ADDR6tab1 70000 =
      run ["icmp6.py", "1"] IFtab1 ADDR6tab1 12345 :=
  ⟨(eid_masked_unused 70000 12345).1,
    (eid_masked_unused 70000 12345).2 ["icmp6.py", "1"] IFtab1 ADDR6tab1⟩

/-- C8: For every invocation with a valid configuration index `N`, the
program calls `sendp` exactly once, on the interface resolved from
`IF_<N>`. -/
theorem sendp_exactly_once (p N IF : String) (ADDR6 : List Nat)
    (IFtab : String → Option String) (ADDR6tab : String → Option (List Nat))
    (pid : Nat) (hIF : IFtab N = some IF) (hA : ADDR6tab N = some ADDR6) :
    (run [p, N] IFtab ADDR6tab pid).sends.length = 1 ∧
    (run [p, N] IFtab ADDR6tab pid).sends.map Prod.fst = [IF] := by
  rw [run_valid p N IF ADDR6 IFtab ADDR6tab pid hIF hA]
  exact ⟨rfl, rfl⟩

theorem sendp_exactly_once_witness :
    (IFtab1 "1" = some "lo0" ∧ ADDR6tab1 "1" = some addr1) ∧
    ((run ["icmp6.py", "1"] IFtab1 ADDR6tab1 1234).sends.length = 1 ∧
    (run ["icmp6.py", "1"] IFtab1 ADDR6tab1 1234).sends.map Prod.fst =
      ["lo0"]) :=
  ⟨⟨by decide, by decide⟩,
    sendp_exactly_once "icmp6.py" "1" "lo0" addr1 IFtab1 ADDR6tab1 1234
      (by decide) (by decide)⟩

/-- C9: For every successful run, the transmitted frame is exactly 64
bytes: the 4-byte link-layer word, a 40-byte IPv6 header whose
payload-length field (frame bytes 8-9) is 20, the 4-byte ICMPv6 header
(type, code, 2-byte checksum, frame bytes 44-47), and the 16-byte body. -/
theorem frame_length_64 (p N IF : String) (ADDR6 : List Nat)
    (IFtab : String → Option String) (ADDR6tab : String → Option (List Nat))
    (pid : Nat) (hIF : IFtab N = some IF) (hA : ADDR6tab N = some ADDR6)
    (hlen : ADDR6.length = 16) :
    (run [p, N] IFtab ADDR6tab pid).sends = [(IF, bpfFrame ADDR6)] ∧
    (bpfFrame ADDR6).length = 64 ∧
    (bpfFrame ADDR6).take 4 = pack_I 24 ∧
    (packetBytes (mkPacket ADDR6)).length = 60 ∧
    ((bpfFrame ADDR6).drop 8).take 2 = be16 20 ∧
    ((bpfFrame ADDR6).drop 44).take 4 =
      [6, 0, icmpCk ADDR6 / 256, icmpCk ADDR6 % 256] ∧
    (bpfFrame ADDR6).drop 48 = payload ∧
    payload.length = 16 := by
  refine ⟨?_, bpfFrame_length ADDR6 hlen, ?_, ?_, ?_, ?_,
    bpfFrame_drop48 ADDR6 hlen, payload_length⟩
  · rw [run_valid p N IF ADDR6 IFtab ADDR6tab pid hIF hA]
  · rw [bpfFrame_take4 ADDR6]; rfl
  · have h := bpfFrame_length ADDR6 hlen
    rw [← bpfFrame_drop4 ADDR6]
    simp [h]
  · rw [bpfFrame_plen ADDR6]; rfl
  · rw [bpfFrame_drop44 ADDR6 hlen]; rfl

theorem frame_length_64_witness :
    (IFtab1 "1" = some "lo0" ∧ ADDR6tab1 "1" = some addr1 ∧
      addr1.length = 16) ∧
    ((run ["icmp6.py", "1"] IFtab1 ADDR6tab1 1234).sends =
        [("lo0", bpfFrame addr1)] ∧
      (bpfFrame addr1).length = 64 ∧
      (bpfFrame addr1).take 4 = pack_I 24 ∧
      (packetBytes (mkPacket addr1)).length = 60 ∧
      ((bpfFrame addr1).drop 8).take 2 = be16 20 ∧
      ((bpfFrame addr1).drop 44).take 4 =
        [6, 0, icmpCk addr1 / 256, icmpCk addr1 % 256] ∧
      (bpfFrame addr1).drop 48 = payload ∧
      payload.length = 16) :=
  ⟨⟨by decide, by decide, by decide⟩,
    frame_length_64 "icmp6.py" "1" "lo0" addr1 IFtab1 ADDR6tab1 1234
      (by decide) (by decide) (by decide)⟩

/-- C10: On every invocation, the announcement string
`"send icmp6 without options"` is the first line printed, before argument
validation; on a usage error the output is exactly the announcement line
followed by the usage line. -/
theorem announcement_first (argv : List String)
    (IFtab : String → Option String) (ADDR6tab : String → Option (List Nat))
    (pid : Nat) :
    (run argv IFtab ADDR6tab pid).stdout.head? = some announcement ∧
    (argv.length ≠ 2 →
      (run argv IFtab ADDR6tab pid).stdout = [announcement, usageMsg]) := by
  constructor
  · unfold run
    split
    · rfl
    · cases hIF : IFtab (argv.getD 1 "") with
      | none => simp only [hIF]; rfl
      | some IF =>
        cases hA : ADDR6tab (argv.getD 1 "") with
        | none => simp only [hIF, hA]; rfl
        | some A => simp only [hIF, hA]; rfl
  · intro h
    simp [run, h]

theorem announcement_first_witness :
    (run ["icmp6.py"] IFtab1 ADDR6tab1 1234).stdout.head? =
      some announcement ∧
    (run ["icmp6.py"] IFtab1 ADDR6tab1 1234).stdout =
      [announcement, usageMsg] :=
  ⟨(announcement_first ["icmp6.py"] IFtab1 ADDR6tab1 1234).1,
    (announcement_first ["icmp6.py"] IFtab1 ADDR6tab1 1234).2 (by decide)⟩

end Icmp6
